import Mathlib

/-!
Verification development for the fast-whisperer transcription service.

The definitions below are a shallow embedding of the decision logic of
`src/youtube_fetch.py`, `src/audio_utils.py` and (for context) `src/main.py`:

* `extract_video_id` embeds the regex-based URL parser;
* `get_youtube_transcript` embeds the caption strategy chain, with the
  external `youtube_transcript_api` collaborator modelled at its interface
  boundary (an explicit enumeration outcome passed as an argument, and the
  two lookup calls modelled as functions over the enumerated tracks);
* `transcribe_file` / `transcribe_uploaded_file` embed the audio adapter,
  with the black-box speech model modelled as an explicit outcome value.

Machine floats of the source are modelled as rationals; Python `round(x, n)`
is modelled by `pyRound` (round half to even at `n` decimal places, Python's
documented rounding mode, ignoring binary-float representation artifacts).
-/

/-- Characters treated as whitespace by Python `str.strip()` / `str.split()`
    for ASCII text: space, tab, newline, carriage return, vertical tab,
    form feed. -/
def pyIsSpace (c : Char) : Bool :=
  c == ' ' || c == '\t' || c == '\n' || c == '\r' ||
  c == (Char.ofNat 11) || c == (Char.ofNat 12)

/-- Python `str.strip()`: drop whitespace from both ends. -/
def pyStrip (s : String) : String :=
  String.mk (((s.data.dropWhile pyIsSpace).reverse.dropWhile pyIsSpace).reverse)

/-- Helper for `pyTokenCount`: counts maximal nonwhitespace runs; the flag
    records whether the previous character was inside a run. -/
def tokenCountAux : List Char → Bool → Nat
  | [], _ => 0
  | c :: cs, inTok =>
    if pyIsSpace c then tokenCountAux cs false
    else (if inTok then 0 else 1) + tokenCountAux cs true

/-- Python `len(s.split())`: the number of whitespace-delimited tokens. -/
def pyTokenCount (s : String) : Nat :=
  tokenCountAux s.data false

/-- Round a rational to the nearest integer, halves to even
    (Python's `round` on ties). -/
def pyRoundInt (q : ℚ) : ℤ :=
  let f := Int.floor q
  let r := q - f
  if r < 1 / 2 then f
  else if 1 / 2 < r then f + 1
  else if f % 2 = 0 then f else f + 1

/-- Python `round(q, n)` over rationals. -/
def pyRound (n : ℕ) (q : ℚ) : ℚ :=
  (pyRoundInt (q * 10 ^ n) : ℚ) / 10 ^ n

/-! ## URL parsing: `extract_video_id` (src/youtube_fetch.py lines 67-89)

The Python function runs `re.search` with three patterns in order:
  1. `(?:youtube\.com\/watch\?v=|youtu\.be\/)([^&\n?#]+)`
  2. `youtube\.com\/embed\/([^&\n?#]+)`
  3. `youtube\.com\/v\/([^&\n?#]+)`
Each pattern is a literal marker (two alternatives for the first) followed
by a greedy nonempty run of characters outside `&`, newline, `?`, `#`.
`re.search` scans left to right; at a given position the alternatives are
tried in order; the first position where some alternative matches (marker
present and followed by at least one allowed character) wins.  The embedding
below reproduces exactly that search. -/

/-- The character class `[^&\n?#]` is violated exactly on these characters. -/
def stopChar (c : Char) : Bool :=
  c == '&' || c == '\n' || c == '?' || c == '#'

/-- Match a literal at the head of a string; on success return the rest. -/
def matchLit : List Char → List Char → Option (List Char)
  | [], s => some s
  | _ :: _, [] => none
  | l :: ls, c :: cs => if l = c then matchLit ls cs else none

/-- One alternative at the current position: the marker must be a literal
    head match and be followed by a nonempty run of characters outside the
    stop set; the captured group is that (greedy, maximal) run. -/
def litCapture (s : List Char) (lit : List Char) : Option (List Char) :=
  match matchLit lit s with
  | none => none
  | some rest =>
    let run := rest.takeWhile fun c => !stopChar c
    if run.isEmpty then none else some run

/-- Try each alternative marker at the current position, in order. -/
def tryLits (lits : List (List Char)) (s : List Char) : Option (List Char) :=
  lits.findSome? (litCapture s)

/-- Model of `re.search` for one pattern: scan positions left to right. -/
def regexSearch (lits : List (List Char)) : List Char → Option (List Char)
  | [] => none
  | c :: cs =>
    match tryLits lits (c :: cs) with
    | some r => some r
    | none => regexSearch lits cs

/-- First alternative of pattern 1: `youtube\.com\/watch\?v=`. -/
def watchMarker : List Char := "youtube.com/watch?v=".data

/-- Second alternative of pattern 1: `youtu\.be\/`. -/
def shortMarker : List Char := "youtu.be/".data

/-- Pattern 2 marker: `youtube\.com\/embed\/`. -/
def embedMarker : List Char := "youtube.com/embed/".data

/-- Pattern 3 marker: `youtube\.com\/v\/`. -/
def vMarker : List Char := "youtube.com/v/".data

/-- All markers of the three patterns, in order. -/
def allMarkers : List (List Char) := [watchMarker, shortMarker, embedMarker, vMarker]

/-- Embedding of `extract_video_id` (src/youtube_fetch.py lines 67-89):
    try the three patterns in order, return the captured group of the first
    match, `none` otherwise.  It is a total function: the Python function
    performs no I/O and raises no exception on string input. -/
def extract_video_id (url : String) : Option String :=
  match regexSearch [watchMarker, shortMarker] url.data with
  | some r => some (String.mk r)
  | none =>
    match regexSearch [embedMarker] url.data with
    | some r => some (String.mk r)
    | none =>
      match regexSearch [vMarker] url.data with
      | some r => some (String.mk r)
      | none => none

/-- A well-formed video identifier for the positive URL-shape theorems:
    nonempty, no characters of the regex stop set, and no `/` (real YouTube
    identifiers are drawn from `[A-Za-z0-9_-]`). -/
def goodId (id : String) : Prop :=
  id.data ≠ [] ∧ ∀ c ∈ id.data, stopChar c = false ∧ c ≠ '/'

instance (id : String) : Decidable (goodId id) := by
  unfold goodId; infer_instance

/-- Predicate `litFails lit pre = true` holds when the literal provably mismatches inside
    `pre` itself — i.e. `matchLit lit (pre ++ suf)` fails for every `suf`.
    Used to discharge, by evaluation, that no pattern matches at any position
    of a concrete URL prelude. -/
def litFails : List Char → List Char → Bool
  | [], _ => false
  | _ :: _, [] => false
  | l :: ls, p :: ps => if l = p then litFails ls ps else true

/-! ## Caption strategy chain: `get_youtube_transcript`
(src/youtube_fetch.py lines 10-64)

The external collaborator `youtube_transcript_api` is modelled at its
interface boundary, as the spec prescribes for collaborators:

* the outcome of `YouTubeTranscriptApi().list(video_id)` is an explicit
  argument of type `ListOutcome` — either the enumerated caption tracks, or
  one of the exceptions the code handles (`TranscriptsDisabled`,
  `VideoUnavailable`) or any other exception;
* each enumerated track carries its language, whether it is
  machine-generated, and the outcome of its `fetch()` call (the list of
  segment texts, or an exception message);
* `find_transcript(languages)` is the ManualCaption lookup of the spec
  (its preference between track kinds is internal to the collaborator;
  spec section 4.2 specifies it as the human-authored-track lookup over the
  preferred language list, which is how it is modelled here);
* `find_generated_transcript(languages)` searches only machine-generated
  tracks, restricted to the language codes it is passed — the code passes
  the preferred-language list (line 42) and on failure prints
  "No transcript found in languages: ..." (line 44). -/

instance {ε α : Type} [DecidableEq ε] [DecidableEq α] : DecidableEq (Except ε α)
  | Except.ok a, Except.ok b =>
    if h : a = b then isTrue (by rw [h])
    else isFalse (by intro hh; cases hh; exact h rfl)
  | Except.ok _, Except.error _ => isFalse (fun hh => Except.noConfusion hh)
  | Except.error _, Except.ok _ => isFalse (fun hh => Except.noConfusion hh)
  | Except.error a, Except.error b =>
    if h : a = b then isTrue (by rw [h])
    else isFalse (by intro hh; cases hh; exact h rfl)

/-- One caption track of the enumeration, with the outcome of fetching it. -/
structure CaptionTrack where
  language : String
  is_generated : Bool
  fetched : Except String (List String)
deriving DecidableEq

/-- Outcome of the `api.list(video_id)` collaborator call. -/
inductive ListOutcome where
  | ok (tracks : List CaptionTrack)
  | transcriptsDisabled
  | videoUnavailable
  | otherError (msg : String)
deriving DecidableEq

/-- The strategies of the spec's strategy chain.  `legacyFlat` appears in
    the spec's chain but is never issued by the code. -/
inductive Strategy where
  | manualCaption
  | autoGenerated
  | legacyFlat
deriving DecidableEq

/-- Collaborator boundary model of `transcript_list.find_transcript(languages)`
    as used on line 38 — the ManualCaption lookup of spec section 4.2:
    a human-authored track in the first preferred language that has one;
    `none` models raising `NoTranscriptFound`. -/
def find_transcript (tracks : List CaptionTrack) (langs : List String) :
    Option CaptionTrack :=
  langs.findSome? fun l =>
    tracks.find? fun t => t.is_generated == false && t.language == l

/-- Collaborator boundary model of
    `transcript_list.find_generated_transcript(languages)` (line 42):
    a machine-generated track in the first preferred language that has one;
    `none` models raising `NoTranscriptFound`.  The search is restricted to
    the language codes passed in — exactly the argument the code supplies. -/
def find_generated_transcript (tracks : List CaptionTrack) (langs : List String) :
    Option CaptionTrack :=
  langs.findSome? fun l =>
    tracks.find? fun t => t.is_generated == true && t.language == l

/-- Default of the `languages` parameter (line 10). -/
def default_languages : List String := ["en", "pt", "es"]

/-- Embedding of `get_youtube_transcript` (src/youtube_fetch.py lines 10-64).
    Returns the Python return value (`None` = `none`) paired with the list of
    caption-lookup strategies attempted, in order (instrumentation used by the
    call-order theorems; the Python function has no such output).

    Control flow mirrors the source: invalid URL returns `None` (line 27);
    the enumeration exceptions `TranscriptsDisabled` / `VideoUnavailable` and
    any other exception are caught by the outer handlers (lines 55-64) and
    return `None`; otherwise `find_transcript` is tried, on `NoTranscriptFound`
    `find_generated_transcript` is tried, on `NoTranscriptFound` again the
    function returns `None` (line 45).  A successful lookup is fetched and the
    segment texts are joined with `" ".join(...)` (line 51) — no trimming and
    no dropping of empty segments; an exception from `fetch()` is caught by
    the outer handler and yields `None`. -/
def get_youtube_transcript (url : String) (langs : List String)
    (listing : ListOutcome) : Option String × List Strategy :=
  match extract_video_id url with
  | none => (none, [])
  | some _ =>
    match listing with
    | ListOutcome.transcriptsDisabled => (none, [])
    | ListOutcome.videoUnavailable => (none, [])
    | ListOutcome.otherError _ => (none, [])
    | ListOutcome.ok tracks =>
      match find_transcript tracks langs with
      | some t =>
        (match t.fetched with
         | Except.ok texts => (some (String.intercalate " " texts), [Strategy.manualCaption])
         | Except.error _ => (none, [Strategy.manualCaption]))
      | none =>
        match find_generated_transcript tracks langs with
        | some t =>
          (match t.fetched with
           | Except.ok texts =>
             (some (String.intercalate " " texts),
              [Strategy.manualCaption, Strategy.autoGenerated])
           | Except.error _ =>
             (none, [Strategy.manualCaption, Strategy.autoGenerated]))
        | none => (none, [Strategy.manualCaption, Strategy.autoGenerated])

/-! ## Audio adapter: `AudioProcessor` (src/audio_utils.py)

The black-box speech model (`self.model.transcribe`) is modelled as an
explicit outcome: either the raw segment stream plus detection info, or an
exception message.  Floats are rationals; `round(x, n)` is `pyRound n`. -/

/-- A raw word from the speech model (`word.word/.start/.end/.probability`). -/
structure RawWord where
  word : String
  start : ℚ
  end_ : ℚ
  probability : ℚ
deriving DecidableEq

/-- A raw segment from the speech model stream.  `words = []` models both a
    missing `words` attribute and an empty/None value (the code guards with
    `hasattr(segment, "words") and segment.words`). -/
structure RawSeg where
  text : String
  start : ℚ
  end_ : ℚ
  words : List RawWord
deriving DecidableEq

/-- The `info` object returned next to the segment stream. -/
structure TransInfo where
  language : String
  language_probability : ℚ
  duration : ℚ
deriving DecidableEq

/-- A processed word dict (lines 112-119): times rounded to 2 places,
    probability to 3. -/
structure WordDict where
  word : String
  start : ℚ
  end_ : ℚ
  probability : ℚ
deriving DecidableEq

/-- A processed segment dict (lines 102-123): `words = none` models the
    absent `"words"` key. -/
structure SegDict where
  start : ℚ
  end_ : ℚ
  text : String
  words : Option (List WordDict)
deriving DecidableEq

/-- The result dict of `transcribe_file` / `transcribe_uploaded_file`.
    `none` models an absent key as well as an explicit `None` value.  The
    static `model_info` sub-dict (model size and a copy of the language
    fields) is omitted: it carries configuration only.  -/
structure TFResult where
  success : Bool
  transcript : Option String
  language : Option String
  language_probability : Option ℚ
  duration : Option ℚ
  segments : Option (List SegDict)
  word_count : Option Nat
  character_count : Option Nat
  segment_count : Option Nat
  average_confidence : Option ℚ
  error : Option String
deriving DecidableEq

/-- Word-dict construction (lines 112-119). -/
def roundWord (w : RawWord) : WordDict :=
  { word := w.word
    start := pyRound 2 w.start
    end_ := pyRound 2 w.end_
    probability := pyRound 3 w.probability }

/-- Segment-dict construction for a nonempty stripped text (lines 102-123). -/
def mkSegDict (s : RawSeg) (t : String) : SegDict :=
  { start := pyRound 2 s.start
    end_ := pyRound 2 s.end_
    text := t
    words := if s.words.isEmpty then none else some (s.words.map roundWord) }

/-- The processing loop of lines 99-124: builds `segments_list` and
    `full_transcript` in order, skipping segments whose stripped text is
    empty.  (The loop's `total_words` counter is dead: it is never used in
    the returned dict, and is omitted.) -/
def buildSegments : List RawSeg → List SegDict × List String
  | [] => ([], [])
  | s :: rest =>
    let t := pyStrip s.text
    let acc := buildSegments rest
    if t = "" then acc
    else (mkSegDict s t :: acc.1, t :: acc.2)

/-- The `all_word_probs` collection of lines 132-135: probabilities (already
    rounded to 3 places in the dicts) of every segment that has a `"words"`
    key, in order. -/
def allWordProbs : List SegDict → List ℚ
  | [] => []
  | d :: ds =>
    (match d.words with
     | some ws => ws.map (fun w => w.probability)
     | none => []) ++ allWordProbs ds

/-- The confidence computation of lines 130-137: guarded by
    `if segments_list and "words" in segments_list[0]`, i.e. on the presence
    of word timings in the FIRST processed segment only. -/
def avg_confidence (segs : List SegDict) : Option ℚ :=
  match segs with
  | [] => none
  | d :: _ =>
    match d.words with
    | none => none
    | some _ =>
      let ps := allWordProbs segs
      if ps.isEmpty then none
      else some (pyRound 3 (ps.sum / (ps.length : ℚ)))

/-- Embedding of `AudioProcessor.transcribe_file` (lines 66-165).  The
    argument is the outcome of the `self.model.transcribe(...)` collaborator
    call: its raw segment stream and info object, or the message of the
    exception it raised.  Any exception is caught by lines 157-165 and turned
    into the failure dict (whose only keys are the six modelled here; the
    remaining fields are absent). -/
def transcribe_file (outcome : Except String (List RawSeg × TransInfo)) : TFResult :=
  match outcome with
  | Except.error msg =>
    { success := false
      error := some ("Transcription failed: " ++ msg)
      transcript := none
      language := none
      language_probability := none
      duration := none
      segments := none
      word_count := none
      character_count := none
      segment_count := none
      average_confidence := none }
  | Except.ok (rawSegs, info) =>
    let built := buildSegments rawSegs
    let text := String.intercalate " " built.2
    { success := true
      transcript := some text
      language := some info.language
      language_probability := some (pyRound 3 info.language_probability)
      duration := some (pyRound 2 info.duration)
      segments := some built.1
      word_count := some (if text = "" then 0 else pyTokenCount text)
      character_count := some text.length
      segment_count := some built.1.length
      average_confidence := avg_confidence built.1
      error := none }

/-- Set `SUPPORTED_FORMATS` (lines 12-23), in the order of the set literal.
    (Python set iteration order is unspecified; only membership and the
    joined error message use it, and no theorem depends on the order.) -/
def supported_formats : List String :=
  [".mp3", ".wav", ".m4a", ".flac", ".ogg", ".wma", ".aac", ".webm", ".mp4", ".mov"]

/-- ASCII lowercasing, modelling `str.lower()` on filenames. -/
def lowerStr (s : String) : String :=
  String.mk (s.data.map Char.toLower)

/-- Split a character list on `/` (the pieces, separators dropped). -/
def splitSlash : List Char → List (List Char)
  | [] => [[]]
  | c :: cs =>
    let r := splitSlash cs
    if c = '/' then [] :: r
    else
      match r with
      | [] => [[c]]
      | h :: t => (c :: h) :: t

/-- Python `Path(filename).name`: the last nonempty `/`-separated component. -/
def pathName (filename : String) : String :=
  String.mk (((splitSlash filename.data).filter (fun p => p ≠ [])).getLast?.getD [])

/-- Python `Path(filename).suffix`: the part of the name from its last dot, when
    that dot is neither the first nor the last character of the name
    (CPython's `0 < i < len(name) - 1` rule); otherwise the empty string. -/
def pathSuffix (filename : String) : String :=
  let name := (pathName filename).data
  match name.reverse.findIdx? (fun c => c = '.') with
  | none => ""
  | some j =>
    let i := name.length - 1 - j
    if 0 < i ∧ i < name.length - 1 then String.mk (name.drop i) else ""

/-- Embedding of `AudioProcessor.is_supported_format` (lines 39-41). -/
def is_supported_format (filename : String) : Bool :=
  supported_formats.contains (lowerStr (pathSuffix filename))

/-- The message of the unsupported-format rejection (lines 61-62):
    `", ".join(self.SUPPORTED_FORMATS)` over the set.  The join order here is
    the set-literal order; Python's actual set iteration order is unspecified
    (no theorem depends on the tail of this string). -/
def unsupported_format_message : String :=
  "Unsupported file format. Supported formats: " ++
    String.intercalate ", " supported_formats

/-- Embedding of `AudioProcessor.validate_audio_file` (lines 43-64).
    The `max_size_mb` parameter of the source is dead (the body never reads
    it) and is omitted.  Python's `if not filename` on a string is the
    emptiness test. -/
def validate_audio_file (filename : String) : Bool × String :=
  if filename = "" then (false, "No filename provided")
  else if is_supported_format filename = false then
    (false, unsupported_format_message)
  else (true, "")

/-- The observable side effects of `transcribe_uploaded_file`, recorded in
    order: temporary-file creation, speech-model invocation, and the
    `os.unlink` deletion attempt. -/
inductive UploadEvent where
  | tempCreate
  | modelCall
  | tempUnlink
deriving DecidableEq

/-- The collaborator behaviour an upload runs against: the speech model's
    outcome, whether writing the bytes to the temporary file succeeds
    (`tmp_file.write`/`flush` can raise `OSError`), and whether the
    `os.unlink` cleanup succeeds. -/
structure UploadEnv where
  modelOutcome : Except String (List RawSeg × TransInfo)
  writeOk : Bool
  unlinkOk : Bool

/-- The failure dict built for a rejected upload (lines 189-196). -/
def rejectionResult (msg : String) : TFResult :=
  { success := false
    error := some msg
    transcript := none
    language := none
    language_probability := none
    duration := none
    segments := none
    word_count := none
    character_count := none
    segment_count := none
    average_confidence := none }

/-- Embedding of `AudioProcessor.transcribe_uploaded_file` (lines 167-222).
    Returns the Python outcome (`Except.error` = an exception propagating to
    the caller) paired with the recorded side-effect events.

    Control flow mirrors the source: validation failure returns the failure
    dict before any temporary file is created (lines 186-196); otherwise a
    named temporary file is created, the bytes are written and
    `transcribe_file` is awaited inside `try`, and the `finally` block always
    attempts `os.unlink`, swallowing `OSError` — so the result never depends
    on whether deletion succeeds (`env.unlinkOk` is deliberately unread,
    as in the source).  If writing raises, the `finally` still runs and the
    exception then propagates.  `transcribe_file` itself never raises (it
    catches every exception), so the model call always yields a dict. -/
def transcribe_uploaded_file (filename : String) (env : UploadEnv) :
    Except String TFResult × List UploadEvent :=
  match validate_audio_file filename with
  | (false, msg) => (Except.ok (rejectionResult msg), [])
  | (true, _) =>
    if env.writeOk then
      (Except.ok (transcribe_file env.modelOutcome),
       [UploadEvent.tempCreate, UploadEvent.modelCall, UploadEvent.tempUnlink])
    else
      (Except.error "OSError: failed to write temporary file",
       [UploadEvent.tempCreate, UploadEvent.tempUnlink])

/-- Spec-side normalizer, written from the spec's words for comparison with
    the code path (section 4.4): "joins segment texts with a single space
    separator, trimming empty segments before joining (empty-text segments
    are dropped)". -/
def normalizedJoin (texts : List String) : String :=
  String.intercalate " " ((texts.map pyStrip).filter fun t => t ≠ "")

/-!
# Theorems

Helper lemmas first, then one theorem (with counterexample / witness
companions where required) per claim.
-/

/-- A successful literal match decomposes the string. -/
theorem matchLit_eq_append {lit s r : List Char} (h : matchLit lit s = some r) :
    s = lit ++ r := by
  induction lit generalizing s with
  | nil => simpa [matchLit] using h
  | cons l ls ih =>
    cases s with
    | nil => simp [matchLit] at h
    | cons c cs =>
      by_cases hc : l = c
      · subst hc
        simp only [matchLit, if_pos rfl] at h
        simpa using ih h
      · simp [matchLit, hc] at h

/-- A literal matches its own extension, leaving the rest. -/
theorem matchLit_self_append (lit r : List Char) :
    matchLit lit (lit ++ r) = some r := by
  induction lit with
  | nil => rfl
  | cons l ls ih => simp [matchLit, ih]

/-- A literal that mismatches inside the prelude fails for every suffix. -/
theorem matchLit_none_of_litFails {lit pre : List Char}
    (h : litFails lit pre = true) (suf : List Char) :
    matchLit lit (pre ++ suf) = none := by
  induction lit generalizing pre with
  | nil => simp [litFails] at h
  | cons l ls ih =>
    cases pre with
    | nil => simp [litFails] at h
    | cons p ps =>
      by_cases hc : l = p
      · subst hc
        simp only [litFails, if_pos rfl] at h
        simpa [matchLit] using ih h
      · simp [matchLit, hc]

/-- A failing literal match yields no capture. -/
theorem litCapture_none {s lit : List Char} (h : matchLit lit s = none) :
    litCapture s lit = none := by
  unfold litCapture
  rw [h]

/-- Hypothesis `goodId` gives the captured group: the greedy run over the identifier is
    the whole identifier. -/
theorem takeWhile_of_goodId {id : String} (h : goodId id) :
    id.data.takeWhile (fun c => !stopChar c) = id.data := by
  rw [List.takeWhile_eq_self_iff]
  intro c hc
  simp [(h.2 c hc).1]

/-- Rebuilding `String.mk` of the data is the string itself. -/
theorem mk_data_eq (s : String) : String.mk s.data = s := rfl

/-- A good identifier after its marker is captured whole. -/
theorem litCapture_self {marker : List Char} {id : String} (h : goodId id) :
    litCapture (marker ++ id.data) marker = some id.data := by
  unfold litCapture
  rw [matchLit_self_append]
  show (if (id.data.takeWhile fun c => !stopChar c).isEmpty then none
        else some (id.data.takeWhile fun c => !stopChar c)) = some id.data
  rw [takeWhile_of_goodId h, List.isEmpty_eq_false.mpr h.1]
  simp

/-- If every alternative mismatches inside the prelude, the position fails. -/
theorem tryLits_none_of_litFails {lits : List (List Char)} {pre : List Char}
    (h : ∀ lit ∈ lits, litFails lit pre = true) (suf : List Char) :
    tryLits lits (pre ++ suf) = none := by
  unfold tryLits
  rw [List.findSome?_eq_none_iff]
  intro lit hmem
  exact litCapture_none (matchLit_none_of_litFails (h lit hmem) suf)

/-- Scanning can skip a prelude at whose positions every alternative
    provably mismatches. -/
theorem regexSearch_skip (lits : List (List Char)) (pre suf : List Char)
    (h : ∀ i, i < pre.length → ∀ lit ∈ lits, litFails lit (pre.drop i) = true) :
    regexSearch lits (pre ++ suf) = regexSearch lits suf := by
  induction pre with
  | nil => rfl
  | cons c ps ih =>
    have h0 : ∀ lit ∈ lits, litFails lit (c :: ps) = true := by
      intro lit hmem
      simpa using h 0 (by simp) lit hmem
    have hstep : tryLits lits (c :: (ps ++ suf)) = none := by
      simpa [List.cons_append] using tryLits_none_of_litFails h0 suf
    have hne : regexSearch lits ((c :: ps) ++ suf) = regexSearch lits (ps ++ suf) := by
      show (match tryLits lits (c :: (ps ++ suf)) with
            | some r => some r
            | none => regexSearch lits (ps ++ suf)) = regexSearch lits (ps ++ suf)
      rw [hstep]
    rw [hne]
    exact ih fun i hi lit hmem => by simpa using h (i + 1) (by simpa using hi) lit hmem

/-- A successful position stops the scan. -/
theorem regexSearch_eq_some {lits : List (List Char)} {s r : List Char}
    (hne : s ≠ []) (h : tryLits lits s = some r) :
    regexSearch lits s = some r := by
  cases s with
  | nil => exact absurd rfl hne
  | cons c cs => simp [regexSearch, h]

/-- A successful try names a matching alternative. -/
theorem tryLits_some_exists {lits : List (List Char)} {s r : List Char}
    (h : tryLits lits s = some r) :
    ∃ lit ∈ lits, ∃ rest, matchLit lit s = some rest := by
  unfold tryLits at h
  induction lits with
  | nil => simp [List.findSome?_nil] at h
  | cons lit lits ih =>
    rw [List.findSome?_cons] at h
    cases hm : matchLit lit s with
    | some rest => exact ⟨lit, by simp, rest, hm⟩
    | none =>
      rw [litCapture_none hm] at h
      obtain ⟨lit', hmem, rest, hrest⟩ := ih h
      exact ⟨lit', by simp [hmem], rest, hrest⟩

/-- A successful scan means some alternative occurs inside the string. -/
theorem regexSearch_marker_occurs {lits : List (List Char)} {s r : List Char}
    (h : regexSearch lits s = some r) :
    ∃ lit ∈ lits, lit <:+: s := by
  induction s with
  | nil => simp [regexSearch] at h
  | cons c cs ih =>
    rw [regexSearch] at h
    cases ht : tryLits lits (c :: cs) with
    | some r' =>
      obtain ⟨lit, hmem, rest, hrest⟩ := tryLits_some_exists ht
      exact ⟨lit, hmem, List.IsPrefix.isInfix (matchLit_eq_append hrest ▸ List.prefix_append lit rest)⟩
    | none =>
      rw [ht] at h
      obtain ⟨lit, hmem, hinf⟩ := ih h
      exact ⟨lit, hmem, List.infix_cons hinf⟩

/-- Contrapositive: if no alternative occurs in the string, the scan fails. -/
theorem regexSearch_none_of_not_contained {lits : List (List Char)} {s : List Char}
    (h : ∀ lit ∈ lits, ¬ lit <:+: s) :
    regexSearch lits s = none := by
  cases hr : regexSearch lits s with
  | none => rfl
  | some r =>
    obtain ⟨lit, hmem, hinf⟩ := regexSearch_marker_occurs hr
    exact absurd hinf (h lit hmem)

/-- If every alternative contains a character the string avoids, the scan
    fails. -/
theorem regexSearch_none_of_avoid {lits : List (List Char)} {s : List Char}
    (h : ∀ lit ∈ lits, ∃ c ∈ lit, ∀ x ∈ s, x ≠ c) :
    regexSearch lits s = none := by
  apply regexSearch_none_of_not_contained
  intro lit hmem hinf
  obtain ⟨c, hc, havoid⟩ := h lit hmem
  exact havoid c (hinf.subset hc) rfl

/-- A marker followed by anything is a nonempty string. -/
theorem marker_append_ne_nil {marker : List Char} (hm : marker ≠ [])
    (rest : List Char) : marker ++ rest ≠ [] :=
  fun heq => hm (List.append_eq_nil.mp heq).1

/-- At the marker's own position, a head alternative matches and captures the
    identifier. -/
theorem tryLits_head_hit {marker : List Char} (lits : List (List Char))
    {id : String} (h : goodId id) :
    tryLits (marker :: lits) (marker ++ id.data) = some id.data := by
  unfold tryLits
  rw [List.findSome?_cons, litCapture_self h]

/-- At `youtu.be/<id>`, the first alternative of pattern 1 fails inside the
    marker and the second captures the identifier. -/
theorem tryLits_pair_short {id : String} (h : goodId id) :
    tryLits [watchMarker, shortMarker] (shortMarker ++ id.data) = some id.data := by
  unfold tryLits
  rw [List.findSome?_cons,
      litCapture_none (matchLit_none_of_litFails (by decide) id.data),
      List.findSome?_cons, litCapture_self h]

/-- No character of a good identifier is `?`. -/
theorem goodId_no_question {id : String} (h : goodId id) :
    ∀ x ∈ id.data, x ≠ '?' := by
  intro x hx heq
  subst heq
  have := (h.2 _ hx).1
  simp [stopChar] at this

/-- No character of a good identifier is `/`. -/
theorem goodId_no_slash {id : String} (h : goodId id) :
    ∀ x ∈ id.data, x ≠ '/' :=
  fun x hx => (h.2 x hx).2

/-- Pattern 1 never matches inside a good identifier (both alternatives
    contain characters a good identifier avoids). -/
theorem pattern1_none_on_id {id : String} (h : goodId id) :
    regexSearch [watchMarker, shortMarker] id.data = none := by
  apply regexSearch_none_of_avoid
  intro lit hmem
  rcases List.mem_cons.mp hmem with h1 | h1
  · exact ⟨'?', by rw [h1]; decide, goodId_no_question h⟩
  · have h2 : lit = shortMarker := by simpa using h1
    exact ⟨'/', by rw [h2]; decide, goodId_no_slash h⟩

/-- Pattern 2 never matches inside a good identifier. -/
theorem pattern2_none_on_id {id : String} (h : goodId id) :
    regexSearch [embedMarker] id.data = none := by
  apply regexSearch_none_of_avoid
  intro lit hmem
  have h2 : lit = embedMarker := by simpa using hmem
  exact ⟨'/', by rw [h2]; decide, goodId_no_slash h⟩

/-- URL shape `https://www.youtube.com/watch?v=<id>`. -/
theorem extract_watch_www {id : String} (h : goodId id) :
    extract_video_id ("https://www.youtube.com/watch?v=" ++ id) = some id := by
  have hdata : ("https://www.youtube.com/watch?v=" ++ id).data
      = "https://www.".data ++ (watchMarker ++ id.data) := by
    rw [String.data_append, ← List.append_assoc]
    rfl
  have hsearch : regexSearch [watchMarker, shortMarker]
      ("https://www.youtube.com/watch?v=" ++ id).data = some id.data := by
    rw [hdata, regexSearch_skip _ _ _ (by decide)]
    exact regexSearch_eq_some (marker_append_ne_nil (by decide) _)
      (tryLits_head_hit _ h)
  unfold extract_video_id
  rw [hsearch]

/-- URL shape `https://m.youtube.com/watch?v=<id>`. -/
theorem extract_watch_m {id : String} (h : goodId id) :
    extract_video_id ("https://m.youtube.com/watch?v=" ++ id) = some id := by
  have hdata : ("https://m.youtube.com/watch?v=" ++ id).data
      = "https://m.".data ++ (watchMarker ++ id.data) := by
    rw [String.data_append, ← List.append_assoc]
    rfl
  have hsearch : regexSearch [watchMarker, shortMarker]
      ("https://m.youtube.com/watch?v=" ++ id).data = some id.data := by
    rw [hdata, regexSearch_skip _ _ _ (by decide)]
    exact regexSearch_eq_some (marker_append_ne_nil (by decide) _)
      (tryLits_head_hit _ h)
  unfold extract_video_id
  rw [hsearch]

/-- URL shape `https://youtube.com/watch?v=<id>`. -/
theorem extract_watch_plain {id : String} (h : goodId id) :
    extract_video_id ("https://youtube.com/watch?v=" ++ id) = some id := by
  have hdata : ("https://youtube.com/watch?v=" ++ id).data
      = "https://".data ++ (watchMarker ++ id.data) := by
    rw [String.data_append, ← List.append_assoc]
    rfl
  have hsearch : regexSearch [watchMarker, shortMarker]
      ("https://youtube.com/watch?v=" ++ id).data = some id.data := by
    rw [hdata, regexSearch_skip _ _ _ (by decide)]
    exact regexSearch_eq_some (marker_append_ne_nil (by decide) _)
      (tryLits_head_hit _ h)
  unfold extract_video_id
  rw [hsearch]

/-- URL shape `https://youtu.be/<id>`. -/
theorem extract_short {id : String} (h : goodId id) :
    extract_video_id ("https://youtu.be/" ++ id) = some id := by
  have hdata : ("https://youtu.be/" ++ id).data
      = "https://".data ++ (shortMarker ++ id.data) := by
    rw [String.data_append, ← List.append_assoc]
    rfl
  have hsearch : regexSearch [watchMarker, shortMarker]
      ("https://youtu.be/" ++ id).data = some id.data := by
    rw [hdata, regexSearch_skip _ _ _ (by decide)]
    exact regexSearch_eq_some (marker_append_ne_nil (by decide) _)
      (tryLits_pair_short h)
  unfold extract_video_id
  rw [hsearch]

/-- URL shape `https://youtube.com/embed/<id>`. -/
theorem extract_embed {id : String} (h : goodId id) :
    extract_video_id ("https://youtube.com/embed/" ++ id) = some id := by
  have h1 : regexSearch [watchMarker, shortMarker]
      ("https://youtube.com/embed/" ++ id).data = none := by
    rw [String.data_append, regexSearch_skip _ _ _ (by decide)]
    exact pattern1_none_on_id h
  have hdata : ("https://youtube.com/embed/" ++ id).data
      = "https://".data ++ (embedMarker ++ id.data) := by
    rw [String.data_append, ← List.append_assoc]
    rfl
  have h2 : regexSearch [embedMarker]
      ("https://youtube.com/embed/" ++ id).data = some id.data := by
    rw [hdata, regexSearch_skip _ _ _ (by decide)]
    exact regexSearch_eq_some (marker_append_ne_nil (by decide) _)
      (tryLits_head_hit _ h)
  unfold extract_video_id
  rw [h1, h2]

/-- URL shape `https://youtube.com/v/<id>`. -/
theorem extract_v {id : String} (h : goodId id) :
    extract_video_id ("https://youtube.com/v/" ++ id) = some id := by
  have h1 : regexSearch [watchMarker, shortMarker]
      ("https://youtube.com/v/" ++ id).data = none := by
    rw [String.data_append, regexSearch_skip _ _ _ (by decide)]
    exact pattern1_none_on_id h
  have h2 : regexSearch [embedMarker]
      ("https://youtube.com/v/" ++ id).data = none := by
    rw [String.data_append, regexSearch_skip _ _ _ (by decide)]
    exact pattern2_none_on_id h
  have hdata : ("https://youtube.com/v/" ++ id).data
      = "https://".data ++ (vMarker ++ id.data) := by
    rw [String.data_append, ← List.append_assoc]
    rfl
  have h3 : regexSearch [vMarker]
      ("https://youtube.com/v/" ++ id).data = some id.data := by
    rw [hdata, regexSearch_skip _ _ _ (by decide)]
    exact regexSearch_eq_some (marker_append_ne_nil (by decide) _)
      (tryLits_head_hit _ h)
  unfold extract_video_id
  rw [h1, h2, h3]

/-- A URL containing none of the four markers yields `none`. -/
theorem extract_none_of_no_marker {url : String}
    (h : ∀ lit ∈ allMarkers, ¬ lit <:+: url.data) :
    extract_video_id url = none := by
  have hw : ¬ watchMarker <:+: url.data := h watchMarker (by simp [allMarkers])
  have hs : ¬ shortMarker <:+: url.data := h shortMarker (by simp [allMarkers])
  have he : ¬ embedMarker <:+: url.data := h embedMarker (by simp [allMarkers])
  have hv : ¬ vMarker <:+: url.data := h vMarker (by simp [allMarkers])
  have h1 : regexSearch [watchMarker, shortMarker] url.data = none := by
    apply regexSearch_none_of_not_contained
    intro lit hmem
    rcases List.mem_cons.mp hmem with h' | h'
    · exact h' ▸ hw
    · have : lit = shortMarker := by simpa using h'
      exact this ▸ hs
  have h2 : regexSearch [embedMarker] url.data = none := by
    apply regexSearch_none_of_not_contained
    intro lit hmem
    have : lit = embedMarker := by simpa using hmem
    exact this ▸ he
  have h3 : regexSearch [vMarker] url.data = none := by
    apply regexSearch_none_of_not_contained
    intro lit hmem
    have : lit = vMarker := by simpa using hmem
    exact this ▸ hv
  unfold extract_video_id
  rw [h1, h2, h3]

/-- The manual lookup finds a manual member track. -/
theorem find_transcript_spec {tracks : List CaptionTrack} {langs : List String}
    {t : CaptionTrack} (h : find_transcript tracks langs = some t) :
    t ∈ tracks ∧ t.is_generated = false ∧ t.language ∈ langs := by
  unfold find_transcript at h
  obtain ⟨l, hl, hfind⟩ := List.exists_of_findSome?_eq_some h
  have hmem := List.mem_of_find?_eq_some hfind
  have hpt := List.find?_some hfind
  simp only [Bool.and_eq_true, beq_iff_eq] at hpt
  exact ⟨hmem, hpt.1, hpt.2 ▸ hl⟩

/-- The manual lookup succeeds when a manual track exists in a preferred
    language. -/
theorem find_transcript_ne_none {tracks : List CaptionTrack} {langs : List String}
    (h : ∃ l ∈ langs, ∃ t ∈ tracks, t.is_generated = false ∧ t.language = l) :
    find_transcript tracks langs ≠ none := by
  intro hf
  unfold find_transcript at hf
  obtain ⟨l, hl, t, ht, hgen, hlang⟩ := h
  have h1 := List.findSome?_eq_none_iff.mp hf l hl
  have h2 := List.find?_eq_none.mp h1 t ht
  apply h2
  simp [hgen, hlang]

/-- The generated lookup finds a generated member track in a preferred
    language. -/
theorem find_generated_transcript_spec {tracks : List CaptionTrack}
    {langs : List String} {t : CaptionTrack}
    (h : find_generated_transcript tracks langs = some t) :
    t ∈ tracks ∧ t.is_generated = true ∧ t.language ∈ langs := by
  unfold find_generated_transcript at h
  obtain ⟨l, hl, hfind⟩ := List.exists_of_findSome?_eq_some h
  have hmem := List.mem_of_find?_eq_some hfind
  have hpt := List.find?_some hfind
  simp only [Bool.and_eq_true, beq_iff_eq] at hpt
  exact ⟨hmem, hpt.1, hpt.2 ▸ hl⟩

/-- The generated lookup fails exactly when no generated track exists in a
    preferred language. -/
theorem find_generated_transcript_none_iff (tracks : List CaptionTrack)
    (langs : List String) :
    find_generated_transcript tracks langs = none ↔
      ∀ t ∈ tracks, t.is_generated = true → t.language ∉ langs := by
  unfold find_generated_transcript
  constructor
  · intro h t ht hgen hlang
    have h1 := List.findSome?_eq_none_iff.mp h t.language hlang
    have h2 := List.find?_eq_none.mp h1 t ht
    apply h2
    simp [hgen]
  · intro h
    rw [List.findSome?_eq_none_iff]
    intro l hl
    rw [List.find?_eq_none]
    intro t ht hp
    simp only [Bool.and_eq_true, beq_iff_eq] at hp
    exact h t ht hp.1 (hp.2 ▸ hl)

/-- C1: if caption enumeration succeeds and both a manual and an
    auto-generated track exist in a preferred language, the resolver returns
    the manual track's content (its fetched segments joined, or `None` only
    if that very fetch raises), and the AutoGeneratedCaption lookup is never
    attempted: the attempt list is exactly `[manualCaption]`. -/
theorem C1_manual_over_auto :
    ∀ (url : String) (langs : List String) (tracks : List CaptionTrack),
      (extract_video_id url).isSome = true →
      (∃ l ∈ langs, ∃ t ∈ tracks, t.is_generated = false ∧ t.language = l) →
      (∃ l ∈ langs, ∃ t ∈ tracks, t.is_generated = true ∧ t.language = l) →
      ∃ t, t ∈ tracks ∧ t.is_generated = false ∧
        find_transcript tracks langs = some t ∧
        get_youtube_transcript url langs (ListOutcome.ok tracks)
          = (Option.map (String.intercalate " ") t.fetched.toOption,
             [Strategy.manualCaption]) := by
  intro url langs tracks hurl hman _hauto
  obtain ⟨t, hf⟩ := Option.ne_none_iff_exists'.mp (find_transcript_ne_none hman)
  obtain ⟨hmem, hgen, _⟩ := find_transcript_spec hf
  obtain ⟨v, hv⟩ := Option.isSome_iff_exists.mp hurl
  refine ⟨t, hmem, hgen, hf, ?_⟩
  cases hfetch : t.fetched with
  | ok texts => simp [get_youtube_transcript, hv, hf, hfetch, Except.toOption]
  | error e => simp [get_youtube_transcript, hv, hf, hfetch, Except.toOption]

/-- C1 witness: with both an auto-generated and a manual English track
    enumerated, the resolver returns the manual content after attempting only
    the manual lookup. -/
theorem C1_manual_over_auto_witness :
    ∃ t, t ∈ ([⟨"en", true, Except.ok ["auto"]⟩,
               ⟨"en", false, Except.ok ["manual"]⟩] : List CaptionTrack) ∧
      t.is_generated = false ∧
      find_transcript [⟨"en", true, Except.ok ["auto"]⟩,
                       ⟨"en", false, Except.ok ["manual"]⟩] ["en"] = some t ∧
      get_youtube_transcript "https://youtu.be/abc" ["en"]
          (ListOutcome.ok [⟨"en", true, Except.ok ["auto"]⟩,
                           ⟨"en", false, Except.ok ["manual"]⟩])
        = (Option.map (String.intercalate " ") t.fetched.toOption,
           [Strategy.manualCaption]) :=
  C1_manual_over_auto "https://youtu.be/abc" ["en"]
    [⟨"en", true, Except.ok ["auto"]⟩, ⟨"en", false, Except.ok ["manual"]⟩]
    (by decide) (by decide) (by decide)

/-- C2 (amended): when neither the manual nor the generated lookup yields a
    track, `get_youtube_transcript` returns `None` immediately after
    attempting manual then auto — no LegacyFlatFetch attempt exists in the
    code and no structured `NoTranscriptAvailable` error is produced — and a
    non-terminal enumeration failure returns `None` without attempting any
    strategy. -/
theorem C2_no_legacy_fallback :
    ∀ (url : String) (langs : List String) (tracks : List CaptionTrack)
      (msg : String),
      (extract_video_id url).isSome = true →
      (find_transcript tracks langs = none →
        find_generated_transcript tracks langs = none →
        get_youtube_transcript url langs (ListOutcome.ok tracks)
          = (none, [Strategy.manualCaption, Strategy.autoGenerated]) ∧
        Strategy.legacyFlat ∉
          (get_youtube_transcript url langs (ListOutcome.ok tracks)).2) ∧
      get_youtube_transcript url langs (ListOutcome.otherError msg)
        = (none, []) := by
  intro url langs tracks msg hurl
  obtain ⟨v, hv⟩ := Option.isSome_iff_exists.mp hurl
  constructor
  · intro hf hg
    have heq : get_youtube_transcript url langs (ListOutcome.ok tracks)
        = (none, [Strategy.manualCaption, Strategy.autoGenerated]) := by
      simp [get_youtube_transcript, hv, hf, hg]
    refine ⟨heq, ?_⟩
    rw [heq]
    decide
  · simp [get_youtube_transcript, hv]

/-- C2 witness: a video with only a German auto-generated track (outside the
    default preferred languages) yields `None` after manual and auto only,
    and a non-terminal enumeration failure yields `None` with no attempts. -/
theorem C2_no_legacy_fallback_witness :
    get_youtube_transcript "https://youtu.be/abc" default_languages
        (ListOutcome.ok [⟨"de", true, Except.ok ["hallo"]⟩])
      = (none, [Strategy.manualCaption, Strategy.autoGenerated]) ∧
    get_youtube_transcript "https://youtu.be/abc" default_languages
        (ListOutcome.otherError "http 500") = (none, []) := by
  have h := C2_no_legacy_fallback "https://youtu.be/abc" default_languages
    [⟨"de", true, Except.ok ["hallo"]⟩] "http 500" (by decide)
  exact ⟨(h.1 (by decide) (by decide)).1, h.2⟩

/-- C2 counterexample: on a video with no caption tracks at all, the claimed
    LegacyFlatFetch attempt never happens and no `NoTranscriptAvailable`
    error value is produced — the function returns bare `None` right after
    the manual and auto lookups. -/
theorem C2_counterexample_no_legacy_attempt :
    get_youtube_transcript "https://youtu.be/abc" default_languages
        (ListOutcome.ok [])
      = (none, [Strategy.manualCaption, Strategy.autoGenerated]) ∧
    Strategy.legacyFlat ∉ [Strategy.manualCaption, Strategy.autoGenerated] := by
  constructor
  · decide
  · decide

/-- C9 (amended): the AutoGeneratedCaption lookup is restricted to the
    preferred-language list: a returned track is generated and in a preferred
    language, and the lookup fails exactly when no generated track exists in
    a preferred language — even when generated tracks in other languages
    exist. -/
theorem C9_generated_lookup_language_restricted :
    ∀ (tracks : List CaptionTrack) (langs : List String),
      (∀ t, find_generated_transcript tracks langs = some t →
        t ∈ tracks ∧ t.is_generated = true ∧ t.language ∈ langs) ∧
      (find_generated_transcript tracks langs = none ↔
        ∀ t ∈ tracks, t.is_generated = true → t.language ∉ langs) :=
  fun tracks langs =>
    ⟨fun _ h => find_generated_transcript_spec h,
     find_generated_transcript_none_iff tracks langs⟩

/-- C9 witness: a Portuguese generated track is found from the default
    preferred languages. -/
theorem C9_generated_lookup_witness :
    (⟨"pt", true, Except.ok ["ola"]⟩ : CaptionTrack)
        ∈ ([⟨"pt", true, Except.ok ["ola"]⟩] : List CaptionTrack) ∧
    (⟨"pt", true, Except.ok ["ola"]⟩ : CaptionTrack).is_generated = true ∧
    (⟨"pt", true, Except.ok ["ola"]⟩ : CaptionTrack).language
        ∈ default_languages :=
  (C9_generated_lookup_language_restricted
      [⟨"pt", true, Except.ok ["ola"]⟩] default_languages).1
    ⟨"pt", true, Except.ok ["ola"]⟩ (by decide)

/-- C9 counterexample: a video whose only track is a machine-generated French
    one — the generated lookup fails with NotFound and the resolver returns
    `None`, although a machine-generated track exists, refuting "fails with
    NotFound only when the video has no machine-generated track at all". -/
theorem C9_counterexample_generated_other_language :
    (get_youtube_transcript "https://youtu.be/abc" default_languages
        (ListOutcome.ok [⟨"fr", true, Except.ok ["bonjour"]⟩])).1 = none ∧
    find_generated_transcript [⟨"fr", true, Except.ok ["bonjour"]⟩]
        default_languages = none ∧
    (⟨"fr", true, Except.ok ["bonjour"]⟩ : CaptionTrack).is_generated = true := by
  refine ⟨?_, ?_, ?_⟩ <;> decide

/-- C8: every collaborator exception is contained at the operation's
    boundary: enumeration exceptions (disabled / unavailable / any other),
    and fetch exceptions of the selected manual or generated track, all make
    `get_youtube_transcript` return `None`; a speech-model exception makes
    `transcribe_file` return a failure dict carrying the underlying message —
    no exception propagates out of either operation. -/
theorem C8_collaborator_exceptions_contained :
    ∀ (url : String) (langs : List String) (msg emsg m : String)
      (tracksA tracksB : List CaptionTrack) (tA tB : CaptionTrack),
      (get_youtube_transcript url langs ListOutcome.transcriptsDisabled).1
        = none ∧
      (get_youtube_transcript url langs ListOutcome.videoUnavailable).1
        = none ∧
      (get_youtube_transcript url langs (ListOutcome.otherError msg)).1
        = none ∧
      (find_transcript tracksA langs = some tA →
        tA.fetched = Except.error emsg →
        (get_youtube_transcript url langs (ListOutcome.ok tracksA)).1 = none) ∧
      (find_transcript tracksB langs = none →
        find_generated_transcript tracksB langs = some tB →
        tB.fetched = Except.error emsg →
        (get_youtube_transcript url langs (ListOutcome.ok tracksB)).1 = none) ∧
      (transcribe_file (Except.error m)).success = false ∧
      (transcribe_file (Except.error m)).error
        = some ("Transcription failed: " ++ m) := by
  intro url langs msg emsg m tracksA tracksB tA tB
  refine ⟨?_, ?_, ?_, ?_, ?_, rfl, rfl⟩
  · cases hv : extract_video_id url <;> simp [get_youtube_transcript, hv]
  · cases hv : extract_video_id url <;> simp [get_youtube_transcript, hv]
  · cases hv : extract_video_id url <;> simp [get_youtube_transcript, hv]
  · intro hf hfe
    cases hv : extract_video_id url <;>
      simp [get_youtube_transcript, hv, hf, hfe]
  · intro hf hg hge
    cases hv : extract_video_id url <;>
      simp [get_youtube_transcript, hv, hf, hg, hge]

/-- C8 witness: concrete contained failures — disabled enumeration, a manual
    track whose fetch raises, and a raising speech model. -/
theorem C8_collaborator_exceptions_witness :
    (get_youtube_transcript "https://youtu.be/abc" ["en"]
        ListOutcome.transcriptsDisabled).1 = none ∧
    (get_youtube_transcript "https://youtu.be/abc" ["en"]
        (ListOutcome.ok [⟨"en", false, Except.error "neterr"⟩])).1 = none ∧
    (get_youtube_transcript "https://youtu.be/abc" ["en"]
        (ListOutcome.ok [⟨"en", true, Except.error "neterr"⟩])).1 = none ∧
    (transcribe_file (Except.error "boom")).error
      = some "Transcription failed: boom" := by
  have h := C8_collaborator_exceptions_contained "https://youtu.be/abc" ["en"]
    "oops" "neterr" "boom"
    [⟨"en", false, Except.error "neterr"⟩] [⟨"en", true, Except.error "neterr"⟩]
    ⟨"en", false, Except.error "neterr"⟩ ⟨"en", true, Except.error "neterr"⟩
  exact ⟨h.1, h.2.2.2.1 (by decide) (by decide),
         h.2.2.2.2.1 (by decide) (by decide) (by decide), h.2.2.2.2.2.2⟩

/-- The transcript list built by the processing loop is exactly the stripped
    texts with empty ones dropped. -/
theorem buildSegments_snd (rawSegs : List RawSeg) :
    (buildSegments rawSegs).2
      = (rawSegs.map fun s => pyStrip s.text).filter fun t => t ≠ "" := by
  induction rawSegs with
  | nil => rfl
  | cons s rest ih =>
    by_cases ht : pyStrip s.text = ""
    · simp [buildSegments, ht, ih]
    · simp [buildSegments, ht, ih]

/-- C4 (amended): in the audio path, the transcript equals the spec
    normalizer's single-space join of trimmed nonempty segment texts;
    `word_count` is the whitespace token count of that text and
    `character_count` its length.  (The YouTube caption path joins raw texts
    instead — see the counterexample.) -/
theorem C4_audio_normalization :
    ∀ (rawSegs : List RawSeg) (info : TransInfo),
      (transcribe_file (Except.ok (rawSegs, info))).transcript
        = some (normalizedJoin (rawSegs.map fun s => s.text)) ∧
      (transcribe_file (Except.ok (rawSegs, info))).word_count
        = some (pyTokenCount (normalizedJoin (rawSegs.map fun s => s.text))) ∧
      (transcribe_file (Except.ok (rawSegs, info))).character_count
        = some (normalizedJoin (rawSegs.map fun s => s.text)).length := by
  intro rawSegs info
  have htext : String.intercalate " " (buildSegments rawSegs).2
      = normalizedJoin (rawSegs.map fun s => s.text) := by
    rw [buildSegments_snd]
    unfold normalizedJoin
    rw [List.map_map]
    rfl
  refine ⟨?_, ?_, ?_⟩
  · show some (String.intercalate " " (buildSegments rawSegs).2) = _
    rw [htext]
  · show some (if String.intercalate " " (buildSegments rawSegs).2 = "" then 0
        else pyTokenCount (String.intercalate " " (buildSegments rawSegs).2)) = _
    rw [htext]
    by_cases hz : normalizedJoin (rawSegs.map fun s => s.text) = ""
    · rw [if_pos hz, hz]
      rfl
    · rw [if_neg hz]
  · show some (String.intercalate " " (buildSegments rawSegs).2).length = _
    rw [htext]

/-- C4 counterexample: the YouTube caption path (line 51 of
    src/youtube_fetch.py) joins the raw segment texts `["", "  ", "hello",
    "world"]` into `"    hello world"`, not the claimed `"hello world"` —
    empty segments are neither trimmed nor dropped there. -/
theorem C4_counterexample_yt_join_raw :
    (get_youtube_transcript "https://youtu.be/abc" ["en"]
        (ListOutcome.ok [⟨"en", false,
          Except.ok ["", "  ", "hello", "world"]⟩])).1
      = some "    hello world" ∧
    ("    hello world" : String) ≠ "hello world" := by
  refine ⟨?_, ?_⟩ <;> decide

/-- Every `words` list stored in a built segment dict is nonempty (the code
    only adds the `"words"` key when `segment.words` is truthy). -/
theorem buildSegments_words_ne_nil (rawSegs : List RawSeg) :
    ∀ d ∈ (buildSegments rawSegs).1, ∀ ws, d.words = some ws → ws ≠ [] := by
  induction rawSegs with
  | nil => intro d hd; simp [buildSegments] at hd
  | cons s rest ih =>
    intro d hd ws hws
    by_cases ht : pyStrip s.text = ""
    · exact ih d (by simpa [buildSegments, ht] using hd) ws hws
    · rw [show buildSegments (s :: rest)
            = (mkSegDict s (pyStrip s.text) :: (buildSegments rest).1,
               pyStrip s.text :: (buildSegments rest).2) from by
          simp [buildSegments, ht]] at hd
      rcases List.mem_cons.mp hd with hd1 | hd2
      · subst hd1
        unfold mkSegDict at hws
        by_cases hw : s.words.isEmpty
        · simp [hw] at hws
        · simp only [hw, Bool.false_eq_true, if_false, Option.some.injEq] at hws
          subst hws
          intro hnil
          rw [List.map_eq_nil_iff] at hnil
          rw [hnil] at hw
          simp at hw
      · exact ih d hd2 ws hws

/-- C5 (amended): `average_confidence` is absent exactly when the processed
    segment list is empty or its FIRST segment carries no word timings
    (the code's guard inspects only `segments_list[0]`); when the first
    segment does carry word timings, it is the mean of the (3-place-rounded)
    word probabilities across all segments that carry them, rounded to 3
    places. -/
theorem C5_average_confidence_first_segment_guard :
    ∀ (rawSegs : List RawSeg) (info : TransInfo),
      ((transcribe_file (Except.ok (rawSegs, info))).average_confidence = none ↔
        (buildSegments rawSegs).1 = [] ∨
          ∃ d ds, (buildSegments rawSegs).1 = d :: ds ∧ d.words = none) ∧
      (∀ d ds ws, (buildSegments rawSegs).1 = d :: ds → d.words = some ws →
        (transcribe_file (Except.ok (rawSegs, info))).average_confidence
          = some (pyRound 3 ((allWordProbs (buildSegments rawSegs).1).sum
              / ((allWordProbs (buildSegments rawSegs).1).length : ℚ)))) := by
  intro rawSegs info
  have hshow : (transcribe_file (Except.ok (rawSegs, info))).average_confidence
      = avg_confidence (buildSegments rawSegs).1 := rfl
  constructor
  · rw [hshow]
    cases hb : (buildSegments rawSegs).1 with
    | nil => simp [avg_confidence]
    | cons d ds =>
      cases hw : d.words with
      | none => simp [avg_confidence, hw]
      | some ws =>
        have hne : ws ≠ [] :=
          buildSegments_words_ne_nil rawSegs d (by rw [hb]; exact List.mem_cons_self d ds) ws hw
        have hprobs : allWordProbs (d :: ds) ≠ [] := by
          intro hnil
          rw [show allWordProbs (d :: ds)
                = (ws.map fun w => w.probability) ++ allWordProbs ds from by
              simp [allWordProbs, hw]] at hnil
          rcases List.append_eq_nil.mp hnil with ⟨h1, _⟩
          exact hne (List.map_eq_nil_iff.mp h1)
        have hemp : (allWordProbs (d :: ds)).isEmpty = false :=
          List.isEmpty_eq_false.mpr hprobs
        constructor
        · intro hnone
          exfalso
          rw [show avg_confidence (d :: ds)
                = (if (allWordProbs (d :: ds)).isEmpty then none
                   else some (pyRound 3 ((allWordProbs (d :: ds)).sum
                     / ((allWordProbs (d :: ds)).length : ℚ)))) from by
              simp [avg_confidence, hw]] at hnone
          rw [hemp] at hnone
          simp at hnone
        · intro hcase
          rcases hcase with h1 | ⟨d', ds', heq, hw'⟩
          · exact absurd h1 (by simp)
          · injection heq with h2 h3
            subst h2
            rw [hw] at hw'
            exact absurd hw' (by simp)
  · intro d ds ws hb hw
    rw [hshow, hb]
    have hne : ws ≠ [] :=
      buildSegments_words_ne_nil rawSegs d (by rw [hb]; exact List.mem_cons_self d ds) ws hw
    have hprobs : allWordProbs (d :: ds) ≠ [] := by
      intro hnil
      rw [show allWordProbs (d :: ds)
            = (ws.map fun w => w.probability) ++ allWordProbs ds from by
          simp [allWordProbs, hw]] at hnil
      rcases List.append_eq_nil.mp hnil with ⟨h1, _⟩
      exact hne (List.map_eq_nil_iff.mp h1)
    have hemp : (allWordProbs (d :: ds)).isEmpty = false :=
      List.isEmpty_eq_false.mpr hprobs
    rw [show avg_confidence (d :: ds)
          = (if (allWordProbs (d :: ds)).isEmpty then none
             else some (pyRound 3 ((allWordProbs (d :: ds)).sum
               / ((allWordProbs (d :: ds)).length : ℚ)))) from by
        simp [avg_confidence, hw]]
    rw [hemp]
    simp

/-- C5 witness: word probabilities `[0.9, 0.8]` in the first segment and
    `[0.95]` in the second give `average_confidence = 0.883`. -/
theorem C5_average_confidence_witness :
    (transcribe_file (Except.ok
        ([⟨"a", 0, 1, [⟨"a", 0, 1, 9/10⟩, ⟨"x", 0, 1, 8/10⟩]⟩,
          ⟨"b", 1, 2, [⟨"b", 1, 2, 95/100⟩]⟩], ⟨"en", 1, 2⟩))).average_confidence
      = some (883/1000 : ℚ) := by
  have h := (C5_average_confidence_first_segment_guard
      [⟨"a", 0, 1, [⟨"a", 0, 1, 9/10⟩, ⟨"x", 0, 1, 8/10⟩]⟩,
       ⟨"b", 1, 2, [⟨"b", 1, 2, 95/100⟩]⟩] ⟨"en", 1, 2⟩).2
    (mkSegDict ⟨"a", 0, 1, [⟨"a", 0, 1, 9/10⟩, ⟨"x", 0, 1, 8/10⟩]⟩ (pyStrip "a"))
    (buildSegments [⟨"b", 1, 2, [⟨"b", 1, 2, 95/100⟩]⟩]).1
    (([⟨"a", 0, 1, 9/10⟩, ⟨"x", 0, 1, 8/10⟩] : List RawWord).map roundWord)
    rfl rfl
  rw [h]
  have ha : pyStrip "a" = "a" := rfl
  have hb : pyStrip "b" = "b" := rfl
  norm_num [buildSegments, mkSegDict, roundWord, allWordProbs, ha, hb,
            pyRound, pyRoundInt]

/-- C5 counterexample: the first emitted segment has no word timings, the
    second does — word timings exist in the result, yet `average_confidence`
    is absent, refuting "absent exactly when no word timings exist". -/
theorem C5_counterexample_guard_skips_later_words :
    (transcribe_file (Except.ok
        ([⟨"a", 0, 1, []⟩, ⟨"b", 1, 2, [⟨"b", 1, 2, 9/10⟩]⟩],
         ⟨"en", 1, 2⟩))).average_confidence = none ∧
    Option.map (fun l => l.map fun d => d.words.isSome)
        (transcribe_file (Except.ok
          ([⟨"a", 0, 1, []⟩, ⟨"b", 1, 2, [⟨"b", 1, 2, 9/10⟩]⟩],
           ⟨"en", 1, 2⟩))).segments
      = some [false, true] := by
  refine ⟨?_, ?_⟩ <;> rfl

/-- C6 (amended): every upload with a nonempty filename whose lowercased
    extension is outside the supported set is rejected immediately with the
    unsupported-format failure dict — no temporary file is created and the
    speech model is never invoked (the event list is empty). -/
theorem C6_unsupported_extension_rejected :
    ∀ (filename : String) (env : UploadEnv),
      filename ≠ "" →
      is_supported_format filename = false →
      transcribe_uploaded_file filename env
        = (Except.ok (rejectionResult unsupported_format_message), []) := by
  intro filename env hne hfmt
  simp [transcribe_uploaded_file, validate_audio_file, hne, hfmt]

/-- C6 witness: `notes.txt` is rejected before any model call. -/
theorem C6_unsupported_extension_witness :
    transcribe_uploaded_file "notes.txt" ⟨Except.error "x", true, true⟩
      = (Except.ok (rejectionResult unsupported_format_message), []) :=
  C6_unsupported_extension_rejected "notes.txt" ⟨Except.error "x", true, true⟩
    (by decide) (by decide)

/-- C6 counterexample: the empty filename also has an unsupported extension,
    but its rejection carries the error "No filename provided", not the
    UnsupportedFormat message — so not every unsupported-extension upload
    fails with an UnsupportedFormat error result. -/
theorem C6_counterexample_empty_filename_other_error :
    transcribe_uploaded_file "" ⟨Except.error "x", true, true⟩
      = (Except.ok (rejectionResult "No filename provided"), []) ∧
    is_supported_format "" = false ∧
    rejectionResult "No filename provided"
      ≠ rejectionResult unsupported_format_message := by
  refine ⟨?_, ?_, ?_⟩ <;> decide

/-- C10: an empty filename is rejected with success `false` and the exact
    error message "No filename provided", before any temporary file is
    created and before the model is invoked, whatever the collaborators would
    do — and no exception is raised (the outcome is an `Except.ok` value). -/
theorem C10_empty_filename_rejected :
    ∀ env : UploadEnv,
      transcribe_uploaded_file "" env
        = (Except.ok (rejectionResult "No filename provided"), []) ∧
      (rejectionResult "No filename provided").success = false ∧
      (rejectionResult "No filename provided").error
        = some "No filename provided" := by
  intro env
  exact ⟨rfl, rfl, rfl⟩

/-- C7: for every upload that passes validation, the temporary file is
    created and its deletion is attempted on every exit path; the outcome is
    entirely independent of whether the deletion succeeds (the `finally`
    swallows `OSError`); and when the speech model raises, the caller gets a
    failure dict carrying the message — not an exception, not a leaked
    file. -/
theorem C7_temp_file_cleanup :
    ∀ (filename : String) (env : UploadEnv),
      (validate_audio_file filename).1 = true →
      (UploadEvent.tempCreate ∈ (transcribe_uploaded_file filename env).2 ∧
       UploadEvent.tempUnlink ∈ (transcribe_uploaded_file filename env).2) ∧
      (∀ b : Bool,
        transcribe_uploaded_file filename ⟨env.modelOutcome, env.writeOk, b⟩
          = transcribe_uploaded_file filename env) ∧
      (∀ m : String, env.modelOutcome = Except.error m → env.writeOk = true →
        (transcribe_uploaded_file filename env).1
          = Except.ok (transcribe_file (Except.error m)) ∧
        (transcribe_file (Except.error m)).success = false ∧
        (transcribe_file (Except.error m)).error
          = some ("Transcription failed: " ++ m)) := by
  intro filename env hval
  obtain ⟨mo, w, u⟩ := env
  have hv : validate_audio_file filename
      = (true, (validate_audio_file filename).2) := by
    rw [← hval]
  refine ⟨?_, ?_, ?_⟩
  · unfold transcribe_uploaded_file
    rw [hv]
    cases w <;> simp
  · intro b
    unfold transcribe_uploaded_file
    rw [hv]
  · intro m hm hw
    subst hm
    subst hw
    unfold transcribe_uploaded_file
    rw [hv]
    exact ⟨rfl, rfl, rfl⟩

/-- C7 witness: a valid `.mp3` upload against a raising model — the unlink
    attempt is in the trace, the result ignores whether unlink succeeds, and
    the caller receives the failure dict. -/
theorem C7_temp_file_cleanup_witness :
    UploadEvent.tempUnlink
      ∈ (transcribe_uploaded_file "song.mp3"
          ⟨Except.error "boom", true, true⟩).2 ∧
    transcribe_uploaded_file "song.mp3" ⟨Except.error "boom", true, false⟩
      = transcribe_uploaded_file "song.mp3" ⟨Except.error "boom", true, true⟩ ∧
    (transcribe_uploaded_file "song.mp3" ⟨Except.error "boom", true, true⟩).1
      = Except.ok (transcribe_file (Except.error "boom")) := by
  have h := C7_temp_file_cleanup "song.mp3" ⟨Except.error "boom", true, true⟩
    (by decide)
  exact ⟨h.1.2, h.2.1 false, (h.2.2 "boom" rfl rfl).1⟩

/-- C3 (amended): for every URL of a supported shape the contained identifier
    is returned; and a URL containing no occurrence of any of the four
    pattern markers yields `none`.  (The match is a substring search: the
    host is not anchored — see the counterexample.)  The function is total:
    it never raises. -/
theorem C3_extract_video_id_shapes :
    (∀ id : String, goodId id →
      extract_video_id ("https://www.youtube.com/watch?v=" ++ id) = some id ∧
      extract_video_id ("https://m.youtube.com/watch?v=" ++ id) = some id ∧
      extract_video_id ("https://youtube.com/watch?v=" ++ id) = some id ∧
      extract_video_id ("https://youtu.be/" ++ id) = some id ∧
      extract_video_id ("https://youtube.com/embed/" ++ id) = some id ∧
      extract_video_id ("https://youtube.com/v/" ++ id) = some id) ∧
    (∀ url : String, (∀ lit ∈ allMarkers, ¬ lit <:+: url.data) →
      extract_video_id url = none) :=
  ⟨fun _ h => ⟨extract_watch_www h, extract_watch_m h, extract_watch_plain h,
    extract_short h, extract_embed h, extract_v h⟩,
   fun _ h => extract_none_of_no_marker h⟩

/-- C3 witness: a well-formed identifier is extracted from a `youtu.be` URL
    and a marker-free URL yields `none`. -/
theorem C3_extract_video_id_witness :
    extract_video_id ("https://youtu.be/" ++ "dQw4w9WgXcQ")
      = some "dQw4w9WgXcQ" ∧
    extract_video_id "https://example.com/other?page=1" = none :=
  ⟨((C3_extract_video_id_shapes.1 "dQw4w9WgXcQ" (by decide)).2.2.2.1),
   C3_extract_video_id_shapes.2 "https://example.com/other?page=1" (by decide)⟩

/-- C3 counterexample: the regex search is not anchored to a host, so a URL
    on a different host that merely contains the watch pattern still yields
    an identifier, where the claim requires `none`. -/
theorem C3_counterexample_host_not_anchored :
    extract_video_id "https://notyoutube.com/watch?v=abc123" = some "abc123" ∧
    some "abc123" ≠ (none : Option String) := by
  refine ⟨?_, ?_⟩ <;> decide
